import Mathlib

/-!
# Verification of the WGT golf calculator core (src/calculator.py)

Shallow embedding of the two pure functions of the computational core,
`calculate_angle_factor` and `calculate_steps`, over the rationals ℚ
(idealising Python double-precision arithmetic; every constant of the
source is exactly representable here, `0.1` is embedded as `1/10`).

The Python dict returned by `calculate_steps` is embedded as
`Except String Trace`: the error dict `{"error": msg}` becomes
`Except.error msg` (which by construction carries no trace fields),
and the success dict becomes `Except.ok` of a `Trace` record holding
the numeric content of every entry.  The formatted formula strings of
the source (`f"{distance} * {wind}"` and the like) are presentational
renderings of the very numbers stored in the `result` entries and are
not modelled.  `step_4` is an `Option` because in the source the
`"step_4"` key is only inserted inside the `if`/`elif` on the wind
direction, while `adjusted_distance` is initialised to `0.0` before
that branch.

Python's `str.lower` is embedded as `str_lower`, mapping
`Char.toLower` over the characters (this agrees with Python on the
ASCII range, which covers the recognised direction words and their
case variants).
-/

namespace WGTCalculator

/-- Python `angle % 360` for numeric `angle`: the representative in
`[0, 360)`, i.e. `angle - 360 * ⌊angle / 360⌋`. -/
def normalized_angle (angle : ℚ) : ℚ :=
  angle - 360 * (⌊angle / 360⌋ : ℤ)

/-- First-quadrant branch of `calculate_angle_factor`
(source line 21): `1 - (normalized_angle / 90) * (1 - 0.1)`. -/
def quadrant_1 (n : ℚ) : ℚ := 1 - (n / 90) * (1 - 1/10)

/-- Second-quadrant branch (source line 24):
`0.1 + ((normalized_angle - 90) / 90) * (1 - 0.1)`. -/
def quadrant_2 (n : ℚ) : ℚ := 1/10 + ((n - 90) / 90) * (1 - 1/10)

/-- Third-quadrant branch (source line 27):
`1 - ((normalized_angle - 180) / 90) * (1 - 0.1)`. -/
def quadrant_3 (n : ℚ) : ℚ := 1 - ((n - 180) / 90) * (1 - 1/10)

/-- Fourth-quadrant branch (source line 30):
`0.1 + ((normalized_angle - 270) / 90) * (1 - 0.1)`. -/
def quadrant_4 (n : ℚ) : ℚ := 1/10 + ((n - 270) / 90) * (1 - 1/10)

/-- `calculate_angle_factor` from src/calculator.py lines 15-32:
normalise the angle with `% 360`, then pick the piecewise-linear
branch by the same chained conditions as the source. -/
def calculate_angle_factor (angle : ℚ) : ℚ :=
  if 0 ≤ normalized_angle angle ∧ normalized_angle angle ≤ 90 then
    quadrant_1 (normalized_angle angle)
  else if 90 < normalized_angle angle ∧ normalized_angle angle ≤ 180 then
    quadrant_2 (normalized_angle angle)
  else if 180 < normalized_angle angle ∧ normalized_angle angle ≤ 270 then
    quadrant_3 (normalized_angle angle)
  else
    quadrant_4 (normalized_angle angle)

/-- Python `str.lower`, on the ASCII range (`Char.toLower` lowercases
exactly `A`-`Z`, as Python does for ASCII input). -/
def str_lower (s : String) : String := ⟨s.data.map Char.toLower⟩

/-- Numeric content of the success dict built by `calculate_steps`
(keys `step_1`, `angle_factor`, `step_2` (with its `divisor` entry),
`step_3`, `step_4`, `adjusted_distance`). -/
structure Trace where
  step_1 : ℚ
  angle_factor : ℚ
  divisor : ℚ
  step_2 : ℚ
  step_3 : ℚ
  step_4 : Option ℚ
  adjusted_distance : ℚ
deriving DecidableEq, Repr

/-- The exact message of the error dict (source line 72). -/
def invalid_direction_message : String :=
  "Invalid wind direction. Please use \x27headwind\x27 or \x27tailwind\x27."

/-- `calculate_steps` from src/calculator.py lines 34-105.
`continue_with divisor` is the computation after the divisor has been
selected (source lines 74-105): `step_4` is inserted only inside the
direction `if`/`elif`, and `adjusted_distance` defaults to `0`. -/
def calculate_steps (distance wind angle : ℚ) (wind_direction : String) :
    Except String Trace :=
  let step_1 := distance * wind
  let angle_factor := calculate_angle_factor angle
  let continue_with : ℚ → Except String Trace := fun divisor =>
    let step_2 := divisor / angle_factor
    let step_3 := step_1 / step_2
    let step_4 : Option ℚ :=
      if str_lower wind_direction = "headwind" then some (distance + step_3)
      else if str_lower wind_direction = "tailwind" then some (distance - step_3)
      else none
    let adjusted_distance : ℚ :=
      if str_lower wind_direction = "headwind" then distance + step_3
      else if str_lower wind_direction = "tailwind" then distance - step_3
      else 0
    Except.ok
      { step_1 := step_1
        angle_factor := angle_factor
        divisor := divisor
        step_2 := step_2
        step_3 := step_3
        step_4 := step_4
        adjusted_distance := adjusted_distance }
  if str_lower wind_direction = "tailwind" then continue_with 225
  else if str_lower wind_direction = "headwind" then continue_with 180
  else Except.error invalid_direction_message

/-! ## Basic facts about the angle normalisation -/

/-- The normalised angle is non-negative. -/
lemma normalized_angle_nonneg (a : ℚ) : 0 ≤ normalized_angle a := by
  have h := Int.floor_le (a / 360)
  unfold normalized_angle
  nlinarith [h]

/-- The normalised angle is below 360. -/
lemma normalized_angle_lt (a : ℚ) : normalized_angle a < 360 := by
  have h := Int.lt_floor_add_one (a / 360)
  unfold normalized_angle
  nlinarith [h]

/-- Adding an integer multiple of 360 does not change the
normalised angle. -/
lemma normalized_angle_add_int (a : ℚ) (k : ℤ) :
    normalized_angle (a + 360 * k) = normalized_angle a := by
  unfold normalized_angle
  have hdiv : (a + 360 * k) / 360 = a / 360 + (k : ℚ) := by
    field_simp
    ring
  rw [hdiv, Int.floor_add_int]
  push_cast
  ring

/-- An angle already in `[0, 360)` normalises to itself. -/
lemma normalized_angle_of_bounds (a : ℚ) (h0 : 0 ≤ a) (h1 : a < 360) :
    normalized_angle a = a := by
  unfold normalized_angle
  have hfl : ⌊a / 360⌋ = 0 := by
    rw [Int.floor_eq_zero_iff]
    constructor
    · positivity
    · rw [div_lt_one (by norm_num : (0:ℚ) < 360)]
      exact h1
  rw [hfl]
  norm_num

/-! ## Branch selection lemmas for `calculate_angle_factor` -/

lemma calculate_angle_factor_br1 (a : ℚ) (h90 : normalized_angle a ≤ 90) :
    calculate_angle_factor a = quadrant_1 (normalized_angle a) := by
  unfold calculate_angle_factor
  rw [if_pos ⟨normalized_angle_nonneg a, h90⟩]

lemma calculate_angle_factor_br2 (a : ℚ) (h90 : 90 < normalized_angle a)
    (h180 : normalized_angle a ≤ 180) :
    calculate_angle_factor a = quadrant_2 (normalized_angle a) := by
  unfold calculate_angle_factor
  rw [if_neg (by rintro ⟨-, h⟩; linarith), if_pos ⟨h90, h180⟩]

lemma calculate_angle_factor_br3 (a : ℚ) (h180 : 180 < normalized_angle a)
    (h270 : normalized_angle a ≤ 270) :
    calculate_angle_factor a = quadrant_3 (normalized_angle a) := by
  unfold calculate_angle_factor
  rw [if_neg (by rintro ⟨-, h⟩; linarith),
    if_neg (by rintro ⟨-, h⟩; linarith), if_pos ⟨h180, h270⟩]

lemma calculate_angle_factor_br4 (a : ℚ) (h270 : 270 < normalized_angle a) :
    calculate_angle_factor a = quadrant_4 (normalized_angle a) := by
  unfold calculate_angle_factor
  rw [if_neg (by rintro ⟨-, h⟩; linarith),
    if_neg (by rintro ⟨-, h⟩; linarith),
    if_neg (by rintro ⟨-, h⟩; linarith)]

/-! ## Evaluation of `calculate_angle_factor` at the cardinal angles -/

lemma angle_factor_zero : calculate_angle_factor 0 = 1 := by
  have hn : normalized_angle 0 = 0 :=
    normalized_angle_of_bounds 0 (by norm_num) (by norm_num)
  rw [calculate_angle_factor_br1 0 (by rw [hn]; norm_num), hn]
  norm_num [quadrant_1]

lemma angle_factor_90 : calculate_angle_factor 90 = 1/10 := by
  have hn : normalized_angle 90 = 90 :=
    normalized_angle_of_bounds 90 (by norm_num) (by norm_num)
  rw [calculate_angle_factor_br1 90 (by rw [hn]), hn]
  norm_num [quadrant_1]

lemma angle_factor_180 : calculate_angle_factor 180 = 1 := by
  have hn : normalized_angle 180 = 180 :=
    normalized_angle_of_bounds 180 (by norm_num) (by norm_num)
  rw [calculate_angle_factor_br2 180 (by rw [hn]; norm_num) (by rw [hn]), hn]
  norm_num [quadrant_2]

lemma angle_factor_270 : calculate_angle_factor 270 = 1/10 := by
  have hn : normalized_angle 270 = 270 :=
    normalized_angle_of_bounds 270 (by norm_num) (by norm_num)
  rw [calculate_angle_factor_br3 270 (by rw [hn]; norm_num) (by rw [hn]), hn]
  norm_num [quadrant_3]

/-- Shared bounds: the angle factor always lies in `[1/10, 1]`. -/
lemma angle_factor_bounds (a : ℚ) :
    1/10 ≤ calculate_angle_factor a ∧ calculate_angle_factor a ≤ 1 := by
  have h0 := normalized_angle_nonneg a
  have h360 := normalized_angle_lt a
  rcases le_or_lt (normalized_angle a) 90 with h90 | h90
  · rw [calculate_angle_factor_br1 a h90]
    unfold quadrant_1
    constructor <;> nlinarith
  · rcases le_or_lt (normalized_angle a) 180 with h180 | h180
    · rw [calculate_angle_factor_br2 a h90 h180]
      unfold quadrant_2
      constructor <;> nlinarith
    · rcases le_or_lt (normalized_angle a) 270 with h270 | h270
      · rw [calculate_angle_factor_br3 a h180 h270]
        unfold quadrant_3
        constructor <;> nlinarith
      · rw [calculate_angle_factor_br4 a h270]
        unfold quadrant_4
        constructor <;> nlinarith

/-! ## Claim theorems about `calculate_angle_factor` -/

/-- C2: for every angle, `calculate_angle_factor angle` lies in the
closed interval `[0.1, 1.0]`. -/
theorem angle_factor_in_unit_band (angle : ℚ) :
    1/10 ≤ calculate_angle_factor angle ∧ calculate_angle_factor angle ≤ 1 :=
  angle_factor_bounds angle

/-- C5: `calculate_angle_factor` is periodic with period 360: for
every angle (negative and `≥ 360` included) and every integer `k`,
the factor at `angle` equals the factor at `angle + 360 * k`. -/
theorem angle_factor_periodic (angle : ℚ) (k : ℤ) :
    calculate_angle_factor angle = calculate_angle_factor (angle + 360 * k) := by
  unfold calculate_angle_factor
  rw [normalized_angle_add_int]

/-- C6: the factor is exactly `1.0` at angle 0, `0.1` at 90, `1.0`
at 180 and `0.1` at 270 (exact rational equality, hence within any
positive tolerance such as `1e-9`). -/
theorem angle_factor_cardinal_values :
    calculate_angle_factor 0 = 1 ∧ calculate_angle_factor 90 = 1/10 ∧
    calculate_angle_factor 180 = 1 ∧ calculate_angle_factor 270 = 1/10 :=
  ⟨angle_factor_zero, angle_factor_90, angle_factor_180, angle_factor_270⟩

/-- C7: at each quadrant boundary (90, 180, 270, and the 360 → 0
wrap) the two adjacent piecewise-linear formulas agree, and the
boundary angle itself is evaluated by the lower quadrant's formula
(each quadrant's condition is closed at its upper end). -/
theorem angle_factor_boundary_continuity :
    quadrant_1 90 = quadrant_2 90 ∧
    quadrant_2 180 = quadrant_3 180 ∧
    quadrant_3 270 = quadrant_4 270 ∧
    quadrant_4 360 = quadrant_1 0 ∧
    calculate_angle_factor 90 = quadrant_1 90 ∧
    calculate_angle_factor 180 = quadrant_2 180 ∧
    calculate_angle_factor 270 = quadrant_3 270 := by
  have hn90 : normalized_angle 90 = 90 :=
    normalized_angle_of_bounds 90 (by norm_num) (by norm_num)
  have hn180 : normalized_angle 180 = 180 :=
    normalized_angle_of_bounds 180 (by norm_num) (by norm_num)
  have hn270 : normalized_angle 270 = 270 :=
    normalized_angle_of_bounds 270 (by norm_num) (by norm_num)
  refine ⟨by norm_num [quadrant_1, quadrant_2],
    by norm_num [quadrant_2, quadrant_3],
    by norm_num [quadrant_3, quadrant_4],
    by norm_num [quadrant_4, quadrant_1], ?_, ?_, ?_⟩
  · rw [calculate_angle_factor_br1 90 (by rw [hn90]), hn90]
  · rw [calculate_angle_factor_br2 180 (by rw [hn180]; norm_num)
      (by rw [hn180]), hn180]
  · rw [calculate_angle_factor_br3 270 (by rw [hn270]; norm_num)
      (by rw [hn270]), hn270]

/-! ## Branch lemmas for `calculate_steps` -/

/-- On a direction lowercasing to `"headwind"`, `calculate_steps`
returns the full headwind trace. -/
lemma calculate_steps_headwind_eq (d w a : ℚ) (s : String)
    (h : str_lower s = "headwind") :
    calculate_steps d w a s = Except.ok
      { step_1 := d * w
        angle_factor := calculate_angle_factor a
        divisor := 180
        step_2 := 180 / calculate_angle_factor a
        step_3 := d * w / (180 / calculate_angle_factor a)
        step_4 := some (d + d * w / (180 / calculate_angle_factor a))
        adjusted_distance := d + d * w / (180 / calculate_angle_factor a) } := by
  simp [calculate_steps, h]

/-- On a direction lowercasing to `"tailwind"`, `calculate_steps`
returns the full tailwind trace. -/
lemma calculate_steps_tailwind_eq (d w a : ℚ) (s : String)
    (h : str_lower s = "tailwind") :
    calculate_steps d w a s = Except.ok
      { step_1 := d * w
        angle_factor := calculate_angle_factor a
        divisor := 225
        step_2 := 225 / calculate_angle_factor a
        step_3 := d * w / (225 / calculate_angle_factor a)
        step_4 := some (d - d * w / (225 / calculate_angle_factor a))
        adjusted_distance := d - d * w / (225 / calculate_angle_factor a) } := by
  simp [calculate_steps, h]

/-- On any other direction, `calculate_steps` returns the error dict. -/
lemma calculate_steps_invalid_eq (d w a : ℚ) (s : String)
    (ht : str_lower s ≠ "tailwind") (hh : str_lower s ≠ "headwind") :
    calculate_steps d w a s = Except.error invalid_direction_message := by
  simp [calculate_steps, ht, hh]

/-! ## Claim theorems about `calculate_steps` -/

/-- C1: for every distance, wind and angle, and a direction that
case-insensitively equals `"headwind"` or `"tailwind"`,
`calculate_steps` computes `step1 = distance * wind`,
`factor = calculate_angle_factor angle`, `divisor = 225` for tailwind
and `180` for headwind, `step2 = divisor / factor`,
`step3 = step1 / step2`, and an adjusted distance of
`distance + step3` for headwind and `distance - step3` for tailwind,
returning all of these values in the trace. -/
theorem calculate_steps_pipeline (d w a : ℚ) (s : String)
    (h : str_lower s = "headwind" ∨ str_lower s = "tailwind") :
    calculate_steps d w a s = Except.ok
      { step_1 := d * w
        angle_factor := calculate_angle_factor a
        divisor := if str_lower s = "tailwind" then 225 else 180
        step_2 := (if str_lower s = "tailwind" then (225:ℚ) else 180) /
          calculate_angle_factor a
        step_3 := d * w /
          ((if str_lower s = "tailwind" then (225:ℚ) else 180) /
            calculate_angle_factor a)
        step_4 := some (if str_lower s = "headwind" then
            d + d * w / (180 / calculate_angle_factor a)
          else
            d - d * w / (225 / calculate_angle_factor a))
        adjusted_distance := if str_lower s = "headwind" then
            d + d * w / (180 / calculate_angle_factor a)
          else
            d - d * w / (225 / calculate_angle_factor a) } := by
  rcases h with h | h
  · rw [calculate_steps_headwind_eq d w a s h]
    simp [h]
  · rw [calculate_steps_tailwind_eq d w a s h]
    simp [h]

/-- Witness for C1 at `(10, 2, 90, "tailwind")`: the factor at 90 is
`1/10`, so `step2 = 2250` and the adjusted distance is
`10 - 20/2250`. -/
theorem calculate_steps_pipeline_witness :
    calculate_steps 10 2 90 "tailwind" = Except.ok
      ⟨20, 1/10, 225, 2250, 2/225, some (10 - 2/225), 10 - 2/225⟩ := by
  have h := calculate_steps_pipeline 10 2 90 "tailwind" (Or.inr rfl)
  have hl : str_lower "tailwind" = "tailwind" := rfl
  rw [h, angle_factor_90]
  rw [hl]
  norm_num
  decide

/-- C3: `calculate_steps` returns the tagged failure value exactly
when the lowercased direction is neither `"headwind"` nor
`"tailwind"`, and the failure carries exactly the documented message.
In the embedding the failure is `Except.error msg`, whose constructor
carries the message and nothing else — in particular no trace
fields. -/
theorem calculate_steps_invalid_direction (d w a : ℚ) (s e : String) :
    calculate_steps d w a s = Except.error e ↔
      str_lower s ≠ "headwind" ∧ str_lower s ≠ "tailwind" ∧
        e = "Invalid wind direction. Please use \x27headwind\x27 or \x27tailwind\x27." := by
  rcases eq_or_ne (str_lower s) "tailwind" with ht | ht
  · rw [calculate_steps_tailwind_eq d w a s ht]
    simp [ht]
  rcases eq_or_ne (str_lower s) "headwind" with hh | hh
  · rw [calculate_steps_headwind_eq d w a s hh]
    simp [hh]
  · rw [calculate_steps_invalid_eq d w a s ht hh]
    simp only [Except.error.injEq, invalid_direction_message]
    constructor
    · intro he
      exact ⟨hh, ht, he.symm⟩
    · intro he
      exact he.2.2.symm

/-- C4: the worked examples. `calculate_steps 103 15 0 "headwind"`
succeeds with `step1 = 1545`, factor `1`, divisor `180`,
`step2 = 180`, `step3 = 1545/180` and adjusted distance
`103 + 1545/180` (= 111.5833...); with `"tailwind"` the divisor is
`225`, `step2 = 225`, `step3 = 1545/225` (= 6.8666...) and the
adjusted distance `103 - 1545/225` (= 96.1333...). -/
theorem calculate_steps_worked_examples :
    calculate_steps 103 15 0 "headwind" = Except.ok
      ⟨1545, 1, 180, 180, 1545/180, some (103 + 1545/180), 103 + 1545/180⟩ ∧
    calculate_steps 103 15 0 "tailwind" = Except.ok
      ⟨1545, 1, 225, 225, 1545/225, some (103 - 1545/225), 103 - 1545/225⟩ := by
  constructor
  · rw [calculate_steps_headwind_eq 103 15 0 "headwind" rfl, angle_factor_zero]
    norm_num
  · rw [calculate_steps_tailwind_eq 103 15 0 "tailwind" rfl, angle_factor_zero]
    norm_num

/-- C8: `calculate_steps` is case-insensitive in the direction: any
case variant of a valid direction produces the same result as its
all-lowercase form. -/
theorem calculate_steps_case_insensitive (d w a : ℚ) (s : String)
    (h : str_lower s = "headwind" ∨ str_lower s = "tailwind") :
    calculate_steps d w a s = calculate_steps d w a (str_lower s) := by
  rcases h with h | h
  · rw [calculate_steps_headwind_eq d w a s h, h,
      calculate_steps_headwind_eq d w a "headwind" rfl]
  · rw [calculate_steps_tailwind_eq d w a s h, h,
      calculate_steps_tailwind_eq d w a "tailwind" rfl]

/-- Witness for C8: `"HeadWind"` behaves exactly like `"headwind"`. -/
theorem calculate_steps_case_insensitive_witness :
    calculate_steps 103 15 0 "HeadWind" = calculate_steps 103 15 0 "headwind" := by
  have hl : str_lower "HeadWind" = "headwind" := by decide
  have h := calculate_steps_case_insensitive 103 15 0 "HeadWind" (Or.inl hl)
  rwa [hl] at h

/-- C9: under a valid direction the call is total and both divisions
are safe: the step-2 divisor (the angle factor) is strictly positive,
the step-3 divisor (`step2 = divisor / factor`) is strictly positive,
and `calculate_steps` succeeds (the error branch is not taken). -/
theorem calculate_steps_division_safe (d w a : ℚ) (s : String)
    (h : str_lower s = "headwind" ∨ str_lower s = "tailwind") :
    0 < calculate_angle_factor a ∧
    0 < (if str_lower s = "tailwind" then (225:ℚ) else 180) /
      calculate_angle_factor a ∧
    (calculate_steps d w a s).isOk = true := by
  have hpos : 0 < calculate_angle_factor a :=
    lt_of_lt_of_le (by norm_num) (angle_factor_bounds a).1
  refine ⟨hpos, ?_, ?_⟩
  · have hd : 0 < (if str_lower s = "tailwind" then (225:ℚ) else 180) := by
      split <;> norm_num
    exact div_pos hd hpos
  · rcases h with h | h
    · rw [calculate_steps_headwind_eq d w a s h]
      rfl
    · rw [calculate_steps_tailwind_eq d w a s h]
      rfl

/-- Witness for C9 at `(5, 3, 45, "headwind")`. -/
theorem calculate_steps_division_safe_witness :
    0 < calculate_angle_factor 45 ∧
    0 < (if str_lower "headwind" = "tailwind" then (225:ℚ) else 180) /
      calculate_angle_factor 45 ∧
    (calculate_steps 5 3 45 "headwind").isOk = true :=
  calculate_steps_division_safe 5 3 45 "headwind" (Or.inl rfl)

/-- C10: every successful trace is internally consistent: the
`step_4` entry is present and its result is the top-level
`adjusted_distance`. -/
theorem trace_step_four_consistent (d w a : ℚ) (s : String) (t : Trace)
    (h : calculate_steps d w a s = Except.ok t) :
    t.step_4 = some t.adjusted_distance := by
  rcases eq_or_ne (str_lower s) "tailwind" with ht | ht
  · rw [calculate_steps_tailwind_eq d w a s ht] at h
    cases h
    rfl
  rcases eq_or_ne (str_lower s) "headwind" with hh | hh
  · rw [calculate_steps_headwind_eq d w a s hh] at h
    cases h
    rfl
  · rw [calculate_steps_invalid_eq d w a s ht hh] at h
    cases h

/-- Witness for C10 on the concrete headwind trace of
`calculate_steps 103 15 0 "headwind"`. -/
theorem trace_step_four_consistent_witness :
    (⟨1545, 1, 180, 180, 1545/180, some (103 + 1545/180),
        103 + 1545/180⟩ : Trace).step_4 =
      some (⟨1545, 1, 180, 180, 1545/180, some (103 + 1545/180),
        103 + 1545/180⟩ : Trace).adjusted_distance :=
  trace_step_four_consistent 103 15 0 "headwind" _ (by
    rw [calculate_steps_headwind_eq 103 15 0 "headwind" rfl, angle_factor_zero]
    norm_num)

end WGTCalculator
